import Mathlib

/-!
A shallow embedding, in Lean 4, of the element-filtering core of the Scope
repository (a DOM-extraction browser extension): the geometry engine
(content/visibility/geometry.js), the visibility analyzer
(content/visibility/visibility.js), the deduplication engine
(content/filter/deduplication.js), the spatial top-level filter
(content/filter/spatial.js) and the filter pipeline orchestrator
(content/filter/pipeline.js), together with theorems settling the
specification's claims about them.

Numbers are modelled as rationals.  DOM elements are modelled as immutable
snapshots of exactly the fields the filtering code reads (tag name, role
attribute, click-handler presence, inner text, unique CSS path, bounding
rectangle).  Host capabilities (computed style, elementFromPoint, node
containment) are modelled as explicit parameters or snapshot fields.
-/

namespace Scope

-- Filtering thresholds from shared/constants.js (THRESHOLDS object).
namespace THRESHOLDS

/-- shared/constants.js: IOU_CONTAINMENT: 0.7 -/
def IOU_CONTAINMENT : ℚ := 0.7

/-- shared/constants.js: IOU_DEDUPE: 0.9 -/
def IOU_DEDUPE : ℚ := 0.9

/-- shared/constants.js: VISIBILITY_POINTS: 0.6 -/
def VISIBILITY_POINTS : ℚ := 0.6

/-- shared/constants.js: LIGHT_DEDUPE: 0.95 -/
def LIGHT_DEDUPE : ℚ := 0.95

/-- shared/constants.js: VIEWPORT_MARGIN: 50 -/
def VIEWPORT_MARGIN : ℚ := 50

/-- shared/constants.js: MIN_SURVIVORS_PER_STAGE: 3 -/
def MIN_SURVIVORS_PER_STAGE : ℕ := 3

/-- shared/constants.js: MIN_AREA: 100 (minimum bounding box area in square pixels) -/
def MIN_AREA : ℚ := 100

end THRESHOLDS

/-- A bounding rectangle as produced by getBoundingClientRect and consumed by
geometry.js: x, y, width, height.  The derived edges (left, top, right,
bottom) are definitions below, matching DOMRect for non-negative sizes. -/
structure Rect where
  x : ℚ
  y : ℚ
  width : ℚ
  height : ℚ
deriving DecidableEq

/-- DOMRect.left (equal to x). -/
def Rect.left (r : Rect) : ℚ := r.x

/-- DOMRect.top (equal to y). -/
def Rect.top (r : Rect) : ℚ := r.y

/-- DOMRect.right (x + width). -/
def Rect.right (r : Rect) : ℚ := r.x + r.width

/-- DOMRect.bottom (y + height). -/
def Rect.bottom (r : Rect) : ℚ := r.y + r.height

/-- geometry.js calculateArea: rect.width * rect.height. -/
def calculateArea (rect : Rect) : ℚ := rect.width * rect.height

/-- geometry.js calculateIntersection: overlap rectangle area, 0 when the
boxes do not overlap (left >= right or top >= bottom). -/
def calculateIntersection (rectA rectB : Rect) : ℚ :=
  if max rectA.x rectB.x ≥ min (rectA.x + rectA.width) (rectB.x + rectB.width) ∨
     max rectA.y rectB.y ≥ min (rectA.y + rectA.height) (rectB.y + rectB.height) then 0
  else
    (min (rectA.x + rectA.width) (rectB.x + rectB.width) - max rectA.x rectB.x) *
    (min (rectA.y + rectA.height) (rectB.y + rectB.height) - max rectA.y rectB.y)

/-- geometry.js calculateUnion: areaA + areaB - intersection. -/
def calculateUnion (rectA rectB : Rect) : ℚ :=
  calculateArea rectA + calculateArea rectB - calculateIntersection rectA rectB

/-- geometry.js calculateIoU: union > 0 ? intersection / union : 0. -/
def calculateIoU (rectA rectB : Rect) : ℚ :=
  if calculateUnion rectA rectB > 0 then
    calculateIntersection rectA rectB / calculateUnion rectA rectB
  else 0

/-- geometry.js calculateContainment: areaA > 0 ? intersection / areaA : 0
(how much of rectA is contained in rectB). -/
def calculateContainment (rectA rectB : Rect) : ℚ :=
  if calculateArea rectA > 0 then
    calculateIntersection rectA rectB / calculateArea rectA
  else 0

/-- geometry.js isContained: full geometric containment of inner in outer. -/
def isContained (inner outer : Rect) : Bool :=
  decide (inner.x ≥ outer.x ∧ inner.y ≥ outer.y ∧
    inner.x + inner.width ≤ outer.x + outer.width ∧
    inner.y + inner.height ≤ outer.y + outer.height)

/-- JavaScript String.prototype.trim, modelled over the character list:
drop whitespace from both ends. -/
def jsTrim (s : String) : String :=
  ⟨((s.data.dropWhile Char.isWhitespace).reverse.dropWhile Char.isWhitespace).reverse⟩

/-- Lower-casing of one ASCII character (the texts this pipeline compares
are ASCII), as performed by String.prototype.toLowerCase. -/
def jsCharToLower (c : Char) : Char :=
  if 'A' ≤ c ∧ c ≤ 'Z' then Char.ofNat (c.toNat + 32) else c

/-- JavaScript String.prototype.toLowerCase, modelled over the character
list. -/
def jsToLower (s : String) : String :=
  ⟨s.data.map jsCharToLower⟩

/-- JavaScript String.prototype.substring(0, n), modelled over the
character list. -/
def jsSubstringTo (n : ℕ) (s : String) : String :=
  ⟨s.data.take n⟩

/-- Result of the classification service or of the rule-based fallback
(pipeline.js fallbackAnalysis): an element type plus a confidence score. -/
structure Analysis where
  elementType : String
  confidence : ℚ
deriving DecidableEq

/-- Snapshot of a DOM element as read by the filter pipeline and the
deduplication engine: tag name (lower-case), the role attribute
(getAttribute returns null or a string, modelled as Option String),
presence of a click handler (the truthiness of element.onclick or of the
onclick attribute), innerText, the unique CSS path computed by
computeUniqueCssPath / cacheSelector (the light-dedup key), the bounding
rectangle from getBoundingClientRect, and the llmAnalysis metadata
attached by applyLLMAnalysis. -/
structure Elem where
  tagName : String
  role : Option String
  onclick : Bool
  innerText : String
  selector : String
  rect : Rect
  llm : Option Analysis
deriving DecidableEq

/-- JavaScript truthiness of a getAttribute result: null and the empty
string are falsy, every other string is truthy. -/
def jsTruthy : Option String → Bool
  | none => false
  | some s => !(s == "")

/-- pipeline.js isInteractiveElement: interactive tag, role button/link,
or a click handler. -/
def isInteractiveElement (element : Elem) : Bool :=
  ["button", "input", "select", "textarea", "a"].contains element.tagName
  || element.role == some "button"
  || element.role == some "link"
  || element.onclick

/-- pipeline.js calculateConfidence: base 0.5, +0.3 interactive, +0.2
non-empty trimmed text, +0.1 role attribute, +0.1 area over 1000, capped
at 1 by Math.min(confidence, 1.0). -/
def calculateConfidence (element : Elem) : ℚ :=
  let confidence : ℚ := 0.5
  let confidence := if isInteractiveElement element then confidence + 0.3 else confidence
  let confidence := if jsTrim element.innerText ≠ "" then confidence + 0.2 else confidence
  let confidence := if jsTruthy element.role then confidence + 0.1 else confidence
  let confidence :=
    if element.rect.width * element.rect.height > 1000 then confidence + 0.1 else confidence
  min confidence 1

/-- Modelled from the spec: confidence(c) is base 0.5, plus 0.3 if
interactive, plus 0.2 for non-empty text, plus 0.1 for an ARIA role, plus
0.1 for area over 1,000 px², clamped to the interval [0,1] (spec.md §4.6).
Used as the comparison definition for claim C7. -/
def confidenceSpec (element : Elem) : ℚ :=
  max 0 (min ((0.5 : ℚ)
    + (if isInteractiveElement element then 0.3 else 0)
    + (if jsTrim element.innerText ≠ "" then 0.2 else 0)
    + (if jsTruthy element.role then 0.1 else 0)
    + (if element.rect.width * element.rect.height > 1000 then 0.1 else 0)) 1)

/-- A bare non-interactive element attracting no confidence bonus. -/
def plainDiv : Elem := ⟨"div", none, false, "", "body > div", ⟨0, 0, 10, 10⟩, none⟩

/-- An interactive element with text, role and a large box, attracting
every confidence bonus. -/
def richButton : Elem :=
  ⟨"button", some "button", true, "Submit", "#submit", ⟨0, 0, 100, 100⟩, none⟩

/-- Inner accept-loop shared by the stateful deduplication strategies in
deduplication.js: scan the accepted list (the 'unique' array); at the first
accepted element u matching the new candidate e (per the strategy's rule),
either replace u by e (rule returns some true) or drop e keeping u (rule
returns some false), then break; none means no accepted element matched and
the loop's isDuplicate flag stays false. -/
def dedupeInsert (rule : Elem → Elem → Option Bool) (e : Elem) :
    List Elem → Option (List Elem)
  | [] => none
  | u :: us =>
    match rule e u with
    | some true => some (e :: us)
    | some false => some (u :: us)
    | none =>
      match dedupeInsert rule e us with
      | some us' => some (u :: us')
      | none => none

/-- Outer loop shared by the stateful deduplication strategies: process the
candidates in order, growing the accepted list; a candidate with no
matching accepted element is pushed at the end. -/
def dedupeScan (rule : Elem → Elem → Option Bool) :
    List Elem → List Elem → List Elem
  | unique, [] => unique
  | unique, e :: rest =>
    match dedupeInsert rule e unique with
    | some u' => dedupeScan rule u' rest
    | none => dedupeScan rule (unique ++ [e]) rest

/-- Match rule of applyIoUDeduplication (deduplication.js lines 45-75): an
accepted element whose IoU with the candidate exceeds the threshold
matches; the candidate replaces it exactly when the candidate's area is
strictly larger. -/
def iouRule (threshold : ℚ) (e u : Elem) : Option Bool :=
  if calculateIoU e.rect u.rect > threshold then
    some (decide (calculateArea e.rect > calculateArea u.rect))
  else none

/-- deduplication.js applyIoUDeduplication. -/
def applyIoUDeduplication (elements : List Elem) (threshold : ℚ) : List Elem :=
  dedupeScan (iouRule threshold) [] elements

/-- Match rule of applyContainmentDeduplication (deduplication.js lines
83-123): the candidate is dropped when geometrically contained in an
accepted element with containment above the threshold; the accepted
element is replaced when it is contained in the candidate above the
threshold. -/
def containmentRule (threshold : ℚ) (e u : Elem) : Option Bool :=
  if isContained e.rect u.rect ∧ calculateContainment e.rect u.rect > threshold then
    some false
  else if isContained u.rect e.rect ∧ calculateContainment u.rect e.rect > threshold then
    some true
  else none

/-- deduplication.js applyContainmentDeduplication. -/
def applyContainmentDeduplication (elements : List Elem) (threshold : ℚ) : List Elem :=
  dedupeScan (containmentRule threshold) [] elements

/-- Match rule of applyTextBasedDeduplication (deduplication.js lines
152-184): identical non-empty normalized text (trim plus toLowerCase); the
candidate replaces the accepted element exactly when its top+left score is
strictly smaller (closer to the top-left corner). -/
def textRule (e u : Elem) : Option Bool :=
  if jsToLower (jsTrim e.innerText) = jsToLower (jsTrim u.innerText) ∧
     (jsToLower (jsTrim e.innerText)).length > 0 then
    some (decide (e.rect.top + e.rect.left < u.rect.top + u.rect.left))
  else none

/-- deduplication.js applyTextBasedDeduplication. -/
def applyTextBasedDeduplication (elements : List Elem) : List Elem :=
  dedupeScan textRule [] elements

/-- Seen-set loop of applyLightDeduplication (deduplication.js lines
24-37): the first occurrence of each unique CSS path wins. -/
def lightGo (seen : List String) : List Elem → List Elem
  | [] => []
  | e :: rest =>
    if seen.contains e.selector then lightGo seen rest
    else e :: lightGo (e.selector :: seen) rest

/-- deduplication.js applyLightDeduplication. -/
def applyLightDeduplication (elements : List Elem) : List Elem :=
  lightGo [] elements

/-- deduplication.js applyFinalDeduplication (lines 130-144): light, then
IoU, then containment, then text deduplication, applied in sequence. -/
def applyFinalDeduplication (elements : List Elem) : List Elem :=
  applyTextBasedDeduplication
    (applyContainmentDeduplication
      (applyIoUDeduplication (applyLightDeduplication elements) THRESHOLDS.IOU_DEDUPE)
      THRESHOLDS.IOU_CONTAINMENT)

/-- Element covering the x-range [0,100] (area 100). -/
def dedupA : Elem := ⟨"div", none, false, "", "a", ⟨0, 0, 100, 1⟩, none⟩

/-- Element covering the x-range [0,95] (area 95): IoU 0.95 with dedupA. -/
def dedupB : Elem := ⟨"div", none, false, "", "b", ⟨0, 0, 95, 1⟩, none⟩

/-- Element covering the x-range [5,101] (area 96): IoU 90/101 with dedupB
(below 0.9) but 95/101 with dedupA (above 0.9). -/
def dedupC : Elem := ⟨"div", none, false, "", "c", ⟨5, 0, 96, 1⟩, none⟩

/-- JavaScript Map.prototype.set on an association list: an existing key
is updated in place (insertion order preserved), a new key is appended. -/
def mapSet : List (String × String) → String → String → List (String × String)
  | [], k, v => [(k, v)]
  | (k0, v0) :: rest, k, v =>
    if k0 = k then (k, v) :: rest else (k0, v0) :: mapSet rest k v

/-- Removal reason recorded by applyTextBasedDeduplicationWithReasons
(deduplication.js, text duplicate branch): the template literal
interpolating the first 30 characters of the normalized text. -/
def textDupReason (textA : String) : String :=
  "text duplicate: \"" ++ jsSubstringTo 30 textA ++ "...\" - worse position"

/-- Inner loop of applyTextBasedDeduplicationWithReasons (deduplication.js
lines 436-482): on identical non-empty normalized text, the element with
the smaller top+left score stays and the other one's selector is recorded
with the text-duplicate reason. -/
def textReasonInsert (e : Elem) :
    List Elem → Option (List Elem × (String × String))
  | [] => none
  | u :: us =>
    if jsToLower (jsTrim e.innerText) = jsToLower (jsTrim u.innerText) ∧
       (jsToLower (jsTrim e.innerText)).length > 0 then
      if e.rect.top + e.rect.left < u.rect.top + u.rect.left then
        some (e :: us, (u.selector, textDupReason (jsToLower (jsTrim e.innerText))))
      else
        some (u :: us, (e.selector, textDupReason (jsToLower (jsTrim e.innerText))))
    else
      match textReasonInsert e us with
      | some (us', r) => some (u :: us', r)
      | none => none

/-- Outer loop of applyTextBasedDeduplicationWithReasons: the accepted list
and the removedReasons map threaded through the candidates in order. -/
def textReasonGo :
    List Elem × List (String × String) → List Elem → List Elem × List (String × String)
  | acc, [] => acc
  | acc, e :: rest =>
    match textReasonInsert e acc.1 with
    | some (u', r) => textReasonGo (u', mapSet acc.2 r.1 r.2) rest
    | none => textReasonGo (acc.1 ++ [e], acc.2) rest

/-- deduplication.js applyTextBasedDeduplicationWithReasons: survivors plus
the selector-to-reason map of removed elements. -/
def applyTextBasedDeduplicationWithReasons (elements : List Elem) :
    List Elem × List (String × String) :=
  textReasonGo ([], []) elements

/-- Candidate with text Submit at top+left score 20 (spec.md Example 4). -/
def submitNear : Elem := ⟨"button", none, false, "Submit", "#s1", ⟨10, 10, 20, 20⟩, none⟩

/-- Candidate with text Submit at top+left score 100 (spec.md Example 4). -/
def submitFar : Elem := ⟨"button", none, false, "Submit", "#s2", ⟨50, 50, 20, 20⟩, none⟩

/-- pipeline.js ensureMinimumSurvivors (lines 56-78): when fewer than
MIN_SURVIVORS_PER_STAGE elements survived a stage, keep them and top up
with original elements not already present (or the first few originals
when nothing survived). -/
def ensureMinimumSurvivors (elements originalElements : List Elem) : List Elem :=
  if elements.length ≥ THRESHOLDS.MIN_SURVIVORS_PER_STAGE then elements
  else if 0 < elements.length then
    elements ++
      (originalElements.filter fun el => decide (el ∉ elements)).take
        (THRESHOLDS.MIN_SURVIVORS_PER_STAGE - elements.length)
  else originalElements.take THRESHOLDS.MIN_SURVIVORS_PER_STAGE

/-- First of four pairwise-distinct sample elements. -/
def sampleE1 : Elem := ⟨"div", none, false, "", "q1", ⟨0, 0, 10, 10⟩, none⟩

/-- Second sample element. -/
def sampleE2 : Elem := ⟨"div", none, false, "", "q2", ⟨20, 0, 10, 10⟩, none⟩

/-- Third sample element. -/
def sampleE3 : Elem := ⟨"div", none, false, "", "q3", ⟨40, 0, 10, 10⟩, none⟩

/-- Fourth sample element. -/
def sampleE4 : Elem := ⟨"div", none, false, "", "q4", ⟨60, 0, 10, 10⟩, none⟩

/-- Step 13 of applyComprehensiveFiltering (pipeline.js lines 286-298): the
final deduplication pass is applied directly and, unlike every earlier
removing stage, is not followed by an ensureMinimumSurvivors call. -/
def finalDeduplicationStage (elements : List Elem) : List Elem :=
  applyFinalDeduplication elements

/-- Identically-placed element x (distinct selector). -/
def dupX : Elem := ⟨"div", none, false, "", "x", ⟨0, 0, 10, 10⟩, none⟩

/-- Identically-placed element y (distinct selector). -/
def dupY : Elem := ⟨"div", none, false, "", "y", ⟨0, 0, 10, 10⟩, none⟩

/-- Identically-placed element z (distinct selector). -/
def dupZ : Elem := ⟨"div", none, false, "", "z", ⟨0, 0, 10, 10⟩, none⟩

/-- Inner-loop test of filterTopLevelElements (spatial.js lines 33-47):
element j dominates element i when their IoU exceeds IOU_CONTAINMENT and
j's area is strictly larger. -/
def dominatedBy (ei ej : Elem) : Bool :=
  decide (calculateIoU ei.rect ej.rect > THRESHOLDS.IOU_CONTAINMENT ∧
    calculateArea ei.rect < calculateArea ej.rect)

/-- spatial.js filterTopLevelElements (lines 22-55): element i survives iff
no element at a different index dominates it; indices are compared because
the source loop skips only the i === j case. -/
def filterTopLevelElements (elements : List Elem) : List Elem :=
  (elements.enum.filter fun ie =>
      elements.enum.all fun jf => decide (ie.1 = jf.1) || !(dominatedBy ie.2 jf.2)).map
    Prod.snd

/-- Index-free survival predicate: no element of the list dominates e.
Equivalent to the source's indexed loop because domination is irreflexive
(an element never has a strictly larger area than itself). -/
def topLevelKeep (elements : List Elem) (e : Elem) : Bool :=
  elements.all fun f => !(dominatedBy e f)

/-- pipeline.js applyTopLevelFiltering loop (lines 363-376), by remaining
iterations (maxIterations = 5), the previous length (none before the first
iteration, matching previous?.length being undefined), and the current
list. -/
def topLevelGo : ℕ → Option ℕ → List Elem → List Elem
  | 0, _, current => current
  | Nat.succ n, none, current =>
    topLevelGo n (some current.length) (filterTopLevelElements current)
  | Nat.succ n, some pl, current =>
    if current.length = pl then current
    else topLevelGo n (some current.length) (filterTopLevelElements current)

/-- pipeline.js applyTopLevelFiltering. -/
def applyTopLevelFiltering (elements : List Elem) : List Elem :=
  topLevelGo 5 none elements

/-- Error raised inside a pipeline stage, modelling a thrown JavaScript
exception. -/
inductive Err where
  | failure (message : String)
deriving DecidableEq

/-- Sequential execution of the stage bodies inside the try block of
applyComprehensiveFiltering: each stage transforms the current element
list and a thrown error aborts the remaining sequence. -/
def runStages (stages : List (List Elem → Except Err (List Elem)))
    (init : List Elem) : Except Err (List Elem) :=
  stages.foldlM (fun current stage => stage current) init

/-- pipeline.js applyComprehensiveFiltering (lines 85-312): one try/catch
wraps the whole stage sequence; the catch block (lines 307-311) logs the
error, reports an error progress update, and rethrows it (throw error). -/
def applyComprehensiveFilteringE (stages : List (List Elem → Except Err (List Elem)))
    (init : List Elem) : Except Err (List Elem) :=
  match runStages stages init with
  | Except.ok elements => Except.ok elements
  | Except.error error => Except.error error

/-- pipeline.js fallbackAnalysis (lines 764-790): deterministic rule-based
classification used when the LLM service is unavailable. -/
def fallbackAnalysis (element : Elem) : Analysis :=
  if element.tagName = "button" ∨ element.role = some "button" then ⟨"button", 0.9⟩
  else if element.tagName = "input" then ⟨"input", 0.9⟩
  else if element.tagName = "a" ∨ element.role = some "link" then ⟨"link", 0.8⟩
  else if element.tagName = "nav" ∨ element.role = some "navigation" then
    ⟨"navigation", 0.8⟩
  else if (jsTrim element.innerText).length > 0 then ⟨"text", 0.6⟩
  else ⟨"container", 0.5⟩

/-- Attaching llmAnalysis metadata to a DOM element
(originalElement.llmAnalysis = result). -/
def attachLLM (element : Elem) (analysis : Analysis) : Elem :=
  ⟨element.tagName, element.role, element.onclick, element.innerText,
    element.selector, element.rect, some analysis⟩

/-- Batch splitting of applyLLMAnalysis (batchSize = 5, pipeline.js line
588): batch i is elements.slice(5i, 5i+5). -/
def chunk5 : List Elem → List (List Elem)
  | [] => []
  | e :: rest => ((e :: rest).take 5) :: chunk5 ((e :: rest).drop 5)
termination_by l => l.length
decreasing_by simp [List.length_drop]; omega

/-- Batch loop of applyLLMAnalysis (pipeline.js lines 594-633): each batch
is guarded by its own try/catch; on success the service results are
attached to the batch's elements, on error every element of the batch
receives the rule-based fallback analysis, so the loop itself never
throws. -/
def llmBatches (analyze : List Elem → Except Err (List Analysis)) :
    List (List Elem) → Except Err (List Elem)
  | [] => Except.ok []
  | batch :: rest =>
    let processed :=
      match analyze batch with
      | Except.ok results => List.zipWith attachLLM batch results
      | Except.error _ => batch.map fun e => attachLLM e (fallbackAnalysis e)
    match llmBatches analyze rest with
    | Except.ok analyzed => Except.ok (processed ++ analyzed)
    | Except.error e => Except.error e

/-- pipeline.js applyLLMAnalysis. -/
def applyLLMAnalysisE (analyze : List Elem → Except Err (List Analysis))
    (elements : List Elem) : Except Err (List Elem) :=
  llmBatches analyze (chunk5 elements)

/-- A stage body that throws (modelling a stage failure). -/
def throwingStage : List Elem → Except Err (List Elem) :=
  fun _ => Except.error (Err.failure "stage failed")

/-- Computed-style snapshot read by the visibility analyzer
(visibility.js): display, visibility, opacity (parseFloat result),
transform and clip-path. -/
structure Style where
  display : String
  visibility : String
  opacity : ℚ
  transform : String
  clipPath : String
deriving DecidableEq

/-- Item flowing through the visibility analyzer: the element handle
(node) plus its boundingRect, and the computed-style snapshot the host
returns for the node (getCachedComputedStyle). -/
structure Item (η : Type) where
  node : η
  boundingRect : Rect
  style : Style

/-- Browser window state read by the visibility analyzer: viewport size
and scroll offsets. -/
structure Env where
  innerWidth : ℚ
  innerHeight : ℚ
  scrollTop : ℚ
  scrollLeft : ℚ

/-- A 2D point. -/
structure Point where
  x : ℚ
  y : ℚ
deriving DecidableEq

/-- Occurrence test of one character list inside another, used to model
JavaScript String.prototype.includes. -/
def charsIsInfixOf (pat : List Char) : List Char → Bool
  | [] => pat.isEmpty
  | c :: rest => pat.isPrefixOf (c :: rest) || charsIsInfixOf pat rest

/-- JavaScript String.prototype.includes. -/
def jsIncludes (s pat : String) : Bool := charsIsInfixOf pat.data s.data

/-- visibility.js isTransformVisible: falsy or none is visible; scale(0),
scaleX(0) or scaleY(0) hides the element. -/
def isTransformVisible (transform : String) : Bool :=
  if transform = "" ∨ transform = "none" then true
  else if jsIncludes transform "scale(0)" || jsIncludes transform "scaleX(0)" ||
      jsIncludes transform "scaleY(0)" then false
  else true

/-- visibility.js isClipPathVisible: falsy or none is visible; an
inset(100% style clip-path hides the element. -/
def isClipPathVisible (clipPath : String) : Bool :=
  if clipPath = "" ∨ clipPath = "none" then true
  else if jsIncludes clipPath "inset(100%" || jsIncludes clipPath "inset(0 0 0 100%" then
    false
  else true

/-- geometry.js generateTestPoints with the default numPoints = 9: the
3 by 3 grid at the 1/4, 1/2 and 3/4 fractional offsets of the box. -/
def generateTestPoints (rect : Rect) : List Point :=
  (List.range 3).flatMap fun row =>
    (List.range 3).map fun col =>
      ⟨rect.x + (rect.width * ((col : ℚ) + 1)) / 4,
       rect.y + (rect.height * ((row : ℚ) + 1)) / 4⟩

/-- One sampled point resolving to the candidate or one of its structural
descendants: document.elementFromPoint returns the topmost node at the
point, which must be the candidate's node or contained in it
(elementAtPoint === node || node.contains(elementAtPoint)). -/
def pointResolves {η : Type} [DecidableEq η] (elementFromPoint : ℚ → ℚ → Option η)
    (contains : η → η → Bool) (node : η) (p : Point) : Bool :=
  match elementFromPoint p.x p.y with
  | none => false
  | some el => decide (el = node) || contains node el

/-- visibility.js isBasicVisible (lines 263-306): CSS property checks,
transform and clip-path checks, the margin-extended viewport check, and
the single center-point occlusion check. -/
def isBasicVisible {η : Type} [DecidableEq η] (env : Env)
    (elementFromPoint : ℚ → ℚ → Option η) (contains : η → η → Bool)
    (item : Item η) : Bool :=
  if item.style.display = "none" ∨ item.style.visibility = "hidden" ∨
     item.style.opacity = 0 ∨ item.boundingRect.width ≤ 0 ∨
     item.boundingRect.height ≤ 0 then false
  else if !(isTransformVisible item.style.transform) then false
  else if !(isClipPathVisible item.style.clipPath) then false
  else if item.boundingRect.bottom < -THRESHOLDS.VIEWPORT_MARGIN ∨
      item.boundingRect.top > env.innerHeight + THRESHOLDS.VIEWPORT_MARGIN ∨
      item.boundingRect.right < -THRESHOLDS.VIEWPORT_MARGIN ∨
      item.boundingRect.left > env.innerWidth + THRESHOLDS.VIEWPORT_MARGIN then false
  else
    pointResolves elementFromPoint contains item.node
      ⟨item.boundingRect.left + item.boundingRect.width / 2,
       item.boundingRect.top + item.boundingRect.height / 2⟩

/-- visibility.js isTrulyVisible (lines 215-256): basic visibility, the
scroll-extended viewport check, then multi-point occlusion sampling
requiring at least VISIBILITY_POINTS of the test points to resolve to the
candidate or a descendant. -/
def isTrulyVisible {η : Type} [DecidableEq η] (env : Env)
    (elementFromPoint : ℚ → ℚ → Option η) (contains : η → η → Bool)
    (item : Item η) : Bool :=
  if !(isBasicVisible env elementFromPoint contains item) then false
  else if item.boundingRect.bottom + env.scrollTop < 0 ∨
      item.boundingRect.top + env.scrollTop > env.innerHeight + env.scrollTop ∨
      item.boundingRect.right + env.scrollLeft < 0 ∨
      item.boundingRect.left + env.scrollLeft > env.innerWidth + env.scrollLeft then false
  else
    let testPoints := generateTestPoints item.boundingRect
    let visiblePoints := testPoints.countP (pointResolves elementFromPoint contains item.node)
    decide ((visiblePoints : ℚ) / (testPoints.length : ℚ) ≥ THRESHOLDS.VISIBILITY_POINTS)

/-- Window of size 100 by 100 with no scroll. -/
def visEnv : Env := ⟨100, 100, 0, 0⟩

/-- A fully visible 10 by 10 item with node handle 0. -/
def visItem : Item ℕ := ⟨0, ⟨0, 0, 10, 10⟩, ⟨"block", "visible", 1, "none", "none"⟩⟩

/-- Topmost-element query always answering node 0. -/
def visEFP : ℚ → ℚ → Option ℕ := fun _ _ => some 0

/-- Containment relation of a single-node document. -/
def visContains : ℕ → ℕ → Bool := fun _ _ => false

theorem calculateIntersection_comm (a b : Rect) :
    calculateIntersection a b = calculateIntersection b a := by
  unfold calculateIntersection
  rw [max_comm a.x b.x, max_comm a.y b.y, min_comm (a.x + a.width) (b.x + b.width),
    min_comm (a.y + a.height) (b.y + b.height)]

theorem calculateUnion_comm (a b : Rect) : calculateUnion a b = calculateUnion b a := by
  unfold calculateUnion
  rw [calculateIntersection_comm]
  ring

theorem calculateIntersection_nonneg (a b : Rect) : 0 ≤ calculateIntersection a b := by
  unfold calculateIntersection
  split
  · exact le_refl 0
  · rename_i hc
    push_neg at hc
    exact mul_nonneg (by linarith [hc.1]) (by linarith [hc.2])

theorem calculateIntersection_le_area (a b : Rect) (h : 0 ≤ calculateArea a) :
    calculateIntersection a b ≤ calculateArea a := by
  unfold calculateIntersection
  split
  · exact h
  · rename_i hc
    push_neg at hc
    obtain ⟨h1, h2⟩ := hc
    have hx1 : min (a.x + a.width) (b.x + b.width) ≤ a.x + a.width := min_le_left _ _
    have hx2 : a.x ≤ max a.x b.x := le_max_left _ _
    have hy1 : min (a.y + a.height) (b.y + b.height) ≤ a.y + a.height := min_le_left _ _
    have hy2 : a.y ≤ max a.y b.y := le_max_left _ _
    have hw : min (a.x + a.width) (b.x + b.width) - max a.x b.x ≤ a.width := by linarith
    have hh : min (a.y + a.height) (b.y + b.height) - max a.y b.y ≤ a.height := by linarith
    have hwp : (0 : ℚ) < min (a.x + a.width) (b.x + b.width) - max a.x b.x := by linarith
    have hhp : (0 : ℚ) < min (a.y + a.height) (b.y + b.height) - max a.y b.y := by linarith
    calc (min (a.x + a.width) (b.x + b.width) - max a.x b.x) *
          (min (a.y + a.height) (b.y + b.height) - max a.y b.y)
        ≤ a.width * a.height := mul_le_mul hw hh hhp.le (by linarith)
      _ = calculateArea a := rfl

theorem calculateIntersection_self (a : Rect) (hw : 0 < a.width) (hh : 0 < a.height) :
    calculateIntersection a a = a.width * a.height := by
  unfold calculateIntersection
  rw [max_self, max_self, min_self, min_self, if_neg]
  · ring
  · push_neg
    constructor <;> linarith

/-- Claim C5: calculateIoU equals intersection over union, is 0 when the
union area is 0, is symmetric, and on the spec's example boxes produces
intersection 2500, union 17500 and IoU 2500/17500. -/
theorem C5_iou_definition :
    (∀ a b : Rect, calculateUnion a b = 0 → calculateIoU a b = 0) ∧
    (∀ a b : Rect, 0 < calculateUnion a b →
      calculateIoU a b = calculateIntersection a b / calculateUnion a b) ∧
    (∀ a b : Rect, calculateIoU a b = calculateIoU b a) ∧
    (calculateIntersection ⟨0, 0, 100, 100⟩ ⟨50, 50, 100, 100⟩ = 2500 ∧
     calculateUnion ⟨0, 0, 100, 100⟩ ⟨50, 50, 100, 100⟩ = 17500 ∧
     calculateIoU ⟨0, 0, 100, 100⟩ ⟨50, 50, 100, 100⟩ = 2500 / 17500) := by
  refine ⟨?_, ?_, ?_,
    by norm_num [calculateIoU, calculateUnion, calculateIntersection, calculateArea,
      min_def, max_def]⟩
  · intro a b h
    unfold calculateIoU
    rw [if_neg]
    rw [h]
    exact lt_irrefl 0
  · intro a b h
    unfold calculateIoU
    rw [if_pos h]
  · intro a b
    unfold calculateIoU
    rw [calculateIntersection_comm, calculateUnion_comm]

theorem C5_iou_definition_witness :
    calculateIoU ⟨0, 0, 0, 0⟩ ⟨0, 0, 0, 0⟩ = 0 ∧
    calculateIoU ⟨0, 0, 100, 100⟩ ⟨50, 50, 100, 100⟩ =
      calculateIntersection ⟨0, 0, 100, 100⟩ ⟨50, 50, 100, 100⟩ /
        calculateUnion ⟨0, 0, 100, 100⟩ ⟨50, 50, 100, 100⟩ :=
  ⟨C5_iou_definition.1 _ _
      (by norm_num [calculateUnion, calculateIntersection, calculateArea, min_def, max_def]),
    C5_iou_definition.2.1 _ _
      (by norm_num [calculateUnion, calculateIntersection, calculateArea, min_def, max_def])⟩

/-- Claim C6 (amended): for every box with positive width and height,
iou(a,a) = 1 and containment(a,a) = 1; containment lies in [0,1] for all
boxes.  The original claim allowed zero width/height, where both
self-measures evaluate to 0 (see the counterexample). -/
theorem C6_identity_and_containment_range :
    (∀ a : Rect, 0 < a.width → 0 < a.height →
      calculateIoU a a = 1 ∧ calculateContainment a a = 1) ∧
    (∀ inner outer : Rect,
      0 ≤ calculateContainment inner outer ∧ calculateContainment inner outer ≤ 1) := by
  constructor
  · intro a hw hh
    have harea : (0 : ℚ) < calculateArea a := mul_pos hw hh
    have hself : calculateIntersection a a = calculateArea a :=
      calculateIntersection_self a hw hh
    constructor
    · unfold calculateIoU calculateUnion
      rw [hself]
      rw [if_pos (by linarith)]
      have : calculateArea a + calculateArea a - calculateArea a = calculateArea a := by ring
      rw [this]
      exact div_self harea.ne'
    · unfold calculateContainment
      rw [if_pos harea, hself]
      exact div_self harea.ne'
  · intro inner outer
    unfold calculateContainment
    split
    · rename_i h
      constructor
      · exact div_nonneg (calculateIntersection_nonneg _ _) h.le
      · exact (div_le_one h).mpr (calculateIntersection_le_area _ _ h.le)
    · constructor <;> norm_num

/-- Counterexample to claim C6 as stated: the zero-size box (width and
height 0, both non-negative) has iou(a,a) = 0 and containment(a,a) = 0,
not 1. -/
theorem C6_counterexample :
    calculateIoU ⟨0, 0, 0, 0⟩ ⟨0, 0, 0, 0⟩ ≠ 1 ∧
    calculateContainment ⟨0, 0, 0, 0⟩ ⟨0, 0, 0, 0⟩ ≠ 1 := by
  norm_num [calculateIoU, calculateContainment, calculateUnion, calculateIntersection,
    calculateArea, min_def, max_def]

theorem C6_identity_and_containment_range_witness :
    calculateIoU ⟨0, 0, 10, 10⟩ ⟨0, 0, 10, 10⟩ = 1 ∧
    calculateContainment ⟨0, 0, 10, 10⟩ ⟨0, 0, 10, 10⟩ = 1 :=
  C6_identity_and_containment_range.1 ⟨0, 0, 10, 10⟩ (by norm_num) (by norm_num)

/-- Claim C7: calculateConfidence computes exactly the spec's clamped
bonus formula, and its value always lies in [0,1]. -/
theorem C7_confidence_formula (element : Elem) :
    calculateConfidence element = confidenceSpec element ∧
    0 ≤ calculateConfidence element ∧ calculateConfidence element ≤ 1 := by
  simp only [calculateConfidence, confidenceSpec]
  split_ifs <;> norm_num [min_def, max_def]

/-- Claim C10 (implicit): confidence never drops below the 0.5 base, so
its actual range is [0.5, 1]; both endpoints are attained. -/
theorem C10_confidence_lower_bound :
    (∀ element : Elem, 0.5 ≤ calculateConfidence element ∧ calculateConfidence element ≤ 1) ∧
    calculateConfidence plainDiv = 0.5 ∧ calculateConfidence richButton = 1 := by
  refine ⟨fun element => ?_, ?_, ?_⟩
  · simp only [calculateConfidence]
    split_ifs <;> norm_num [min_def]
  · simp [calculateConfidence, plainDiv, isInteractiveElement, jsTruthy,
      show jsTrim "" = "" from by decide]
    norm_num [min_def]
  · simp [calculateConfidence, richButton, isInteractiveElement, jsTruthy,
      show jsTrim "Submit" = "Submit" from by decide]
    norm_num [min_def]

theorem dedupeInsert_some_length (rule : Elem → Elem → Option Bool) (e : Elem) :
    ∀ us us' : List Elem, dedupeInsert rule e us = some us' → us'.length = us.length := by
  intro us
  induction us with
  | nil => intro us' h; simp [dedupeInsert] at h
  | cons u t ih =>
    intro us' h
    cases hr : rule e u with
    | some b =>
      cases b <;> simp [dedupeInsert, hr] at h <;> subst h <;> simp
    | none =>
      cases hrec : dedupeInsert rule e t with
      | some t' =>
        simp [dedupeInsert, hr, hrec] at h
        subst h
        simp [ih t' hrec]
      | none => simp [dedupeInsert, hr, hrec] at h

theorem dedupeInsert_some_mem (rule : Elem → Elem → Option Bool) (e : Elem) :
    ∀ us us' : List Elem, dedupeInsert rule e us = some us' →
      ∀ x ∈ us', x ∈ us ∨ x = e := by
  intro us
  induction us with
  | nil => intro us' h; simp [dedupeInsert] at h
  | cons u t ih =>
    intro us' h x hx
    cases hr : rule e u with
    | some b =>
      cases b <;> simp [dedupeInsert, hr] at h <;> subst h <;>
        simp at hx <;> rcases hx with hx | hx <;> simp [hx]
    | none =>
      cases hrec : dedupeInsert rule e t with
      | some t' =>
        simp [dedupeInsert, hr, hrec] at h
        subst h
        simp at hx
        rcases hx with hx | hx
        · simp [hx]
        · rcases ih t' hrec x hx with h1 | h1 <;> simp [h1]
      | none => simp [dedupeInsert, hr, hrec] at h

theorem dedupeScan_length (rule : Elem → Elem → Option Bool) :
    ∀ l unique : List Elem,
      (dedupeScan rule unique l).length ≤ unique.length + l.length := by
  intro l
  induction l with
  | nil => intro unique; simp [dedupeScan]
  | cons e rest ih =>
    intro unique
    cases hi : dedupeInsert rule e unique with
    | some u' =>
      have hlen := dedupeInsert_some_length rule e unique u' hi
      have := ih u'
      simp only [dedupeScan, hi]
      simp only [List.length_cons]
      omega
    | none =>
      have := ih (unique ++ [e])
      simp only [dedupeScan, hi]
      simp only [List.length_append, List.length_cons, List.length_nil] at this ⊢
      omega

theorem dedupeScan_mem (rule : Elem → Elem → Option Bool) :
    ∀ l unique : List Elem, ∀ x ∈ dedupeScan rule unique l, x ∈ unique ∨ x ∈ l := by
  intro l
  induction l with
  | nil => intro unique x hx; simp [dedupeScan] at hx; simp [hx]
  | cons e rest ih =>
    intro unique x hx
    cases hi : dedupeInsert rule e unique with
    | some u' =>
      simp only [dedupeScan, hi] at hx
      rcases ih u' x hx with h1 | h1
      · rcases dedupeInsert_some_mem rule e unique u' hi x h1 with h2 | h2
        · exact Or.inl h2
        · simp [h2]
      · simp [h1]
    | none =>
      simp only [dedupeScan, hi] at hx
      rcases ih (unique ++ [e]) x hx with h1 | h1
      · simp at h1
        rcases h1 with h1 | h1
        · exact Or.inl h1
        · simp [h1]
      · simp [h1]

theorem lightGo_length (l : List Elem) :
    ∀ seen : List String, (lightGo seen l).length ≤ l.length := by
  induction l with
  | nil => intro seen; simp [lightGo]
  | cons e rest ih =>
    intro seen
    rw [lightGo]
    split
    · exact (ih seen).trans (by simp)
    · simpa using ih (e.selector :: seen)

theorem lightGo_mem (l : List Elem) :
    ∀ seen : List String, ∀ x ∈ lightGo seen l, x ∈ l := by
  induction l with
  | nil => intro seen x hx; simp [lightGo] at hx
  | cons e rest ih =>
    intro seen x hx
    rw [lightGo] at hx
    split at hx
    · simp [ih seen x hx]
    · simp at hx
      rcases hx with hx | hx
      · simp [hx]
      · simp [ih _ x hx]

/-- Claim C2 (amended): each pass of the final combined deduplication only
removes candidates: the output is never longer than the input and every
survivor comes from the input.  The pass is not idempotent: a second
application can remove further candidates (see the counterexample). -/
theorem C2_final_dedup_shrinks (l : List Elem) :
    (applyFinalDeduplication l).length ≤ l.length ∧
    (∀ x, x ∈ applyFinalDeduplication l → x ∈ l) := by
  constructor
  · calc (applyFinalDeduplication l).length
        ≤ (applyContainmentDeduplication
            (applyIoUDeduplication (applyLightDeduplication l) THRESHOLDS.IOU_DEDUPE)
            THRESHOLDS.IOU_CONTAINMENT).length := by
          simpa [applyFinalDeduplication, applyTextBasedDeduplication] using
            dedupeScan_length textRule
              (applyContainmentDeduplication
                (applyIoUDeduplication (applyLightDeduplication l) THRESHOLDS.IOU_DEDUPE)
                THRESHOLDS.IOU_CONTAINMENT) []
      _ ≤ (applyIoUDeduplication (applyLightDeduplication l)
            THRESHOLDS.IOU_DEDUPE).length := by
          simpa [applyContainmentDeduplication] using
            dedupeScan_length (containmentRule THRESHOLDS.IOU_CONTAINMENT)
              (applyIoUDeduplication (applyLightDeduplication l) THRESHOLDS.IOU_DEDUPE) []
      _ ≤ (applyLightDeduplication l).length := by
          simpa [applyIoUDeduplication] using
            dedupeScan_length (iouRule THRESHOLDS.IOU_DEDUPE) (applyLightDeduplication l) []
      _ ≤ l.length := lightGo_length l []
  · intro x hx
    have h1 := dedupeScan_mem textRule _ [] x
      (by simpa [applyFinalDeduplication, applyTextBasedDeduplication] using hx)
    simp at h1
    have h2 := dedupeScan_mem (containmentRule THRESHOLDS.IOU_CONTAINMENT) _ [] x
      (by simpa [applyContainmentDeduplication] using h1)
    simp at h2
    have h3 := dedupeScan_mem (iouRule THRESHOLDS.IOU_DEDUPE) _ [] x
      (by simpa [applyIoUDeduplication] using h2)
    simp at h3
    exact lightGo_mem l [] x h3

/-- Counterexample to claim C2 as stated: the final combined deduplication
is not idempotent.  On [dedupB, dedupC, dedupA], the IoU stage accepts
dedupB, accepts dedupC (IoU with dedupB is 90/101 < 0.9), then replaces
dedupB by the larger dedupA; dedupA and dedupC now overlap with IoU
95/101 > 0.9, so a second pass removes dedupC. -/
theorem C2_counterexample :
    applyFinalDeduplication (applyFinalDeduplication [dedupB, dedupC, dedupA]) ≠
      applyFinalDeduplication [dedupB, dedupC, dedupA] := by
  have f1 : iouRule THRESHOLDS.IOU_DEDUPE dedupC dedupB = none := by
    norm_num [iouRule, calculateIoU, calculateUnion, calculateIntersection, calculateArea,
      dedupB, dedupC, min_def, max_def, THRESHOLDS.IOU_DEDUPE]
  have f2 : iouRule THRESHOLDS.IOU_DEDUPE dedupA dedupB = some true := by
    norm_num [iouRule, calculateIoU, calculateUnion, calculateIntersection, calculateArea,
      dedupA, dedupB, min_def, max_def, THRESHOLDS.IOU_DEDUPE]
  have f3 : iouRule THRESHOLDS.IOU_DEDUPE dedupC dedupA = some false := by
    norm_num [iouRule, calculateIoU, calculateUnion, calculateIntersection, calculateArea,
      dedupA, dedupC, min_def, max_def, THRESHOLDS.IOU_DEDUPE]
  have c1 : containmentRule THRESHOLDS.IOU_CONTAINMENT dedupC dedupA = none := by
    norm_num [containmentRule, isContained, dedupA, dedupC]
  have t1 : textRule dedupC dedupA = none := by decide
  have hL1 : applyLightDeduplication [dedupB, dedupC, dedupA] = [dedupB, dedupC, dedupA] := by
    decide
  have hI1 : applyIoUDeduplication [dedupB, dedupC, dedupA] THRESHOLDS.IOU_DEDUPE =
      [dedupA, dedupC] := by
    simp [applyIoUDeduplication, dedupeScan, dedupeInsert, f1, f2]
  have hC1 : applyContainmentDeduplication [dedupA, dedupC] THRESHOLDS.IOU_CONTAINMENT =
      [dedupA, dedupC] := by
    simp [applyContainmentDeduplication, dedupeScan, dedupeInsert, c1]
  have hT1 : applyTextBasedDeduplication [dedupA, dedupC] = [dedupA, dedupC] := by
    simp [applyTextBasedDeduplication, dedupeScan, dedupeInsert, t1]
  have h1 : applyFinalDeduplication [dedupB, dedupC, dedupA] = [dedupA, dedupC] := by
    rw [applyFinalDeduplication, hL1, hI1, hC1, hT1]
  have hL2 : applyLightDeduplication [dedupA, dedupC] = [dedupA, dedupC] := by decide
  have hI2 : applyIoUDeduplication [dedupA, dedupC] THRESHOLDS.IOU_DEDUPE = [dedupA] := by
    simp [applyIoUDeduplication, dedupeScan, dedupeInsert, f3]
  have hC2 : applyContainmentDeduplication [dedupA] THRESHOLDS.IOU_CONTAINMENT = [dedupA] := by
    simp [applyContainmentDeduplication, dedupeScan, dedupeInsert]
  have hT2 : applyTextBasedDeduplication [dedupA] = [dedupA] := by
    simp [applyTextBasedDeduplication, dedupeScan, dedupeInsert]
  have h2 : applyFinalDeduplication [dedupA, dedupC] = [dedupA] := by
    rw [applyFinalDeduplication, hL2, hI2, hC2, hT2]
  rw [h1, h2]
  simp

theorem C2_final_dedup_shrinks_witness :
    (applyFinalDeduplication [dedupB, dedupC, dedupA]).length ≤ 3 ∧
    dedupA ∈ ([dedupB, dedupC, dedupA] : List Elem) :=
  ⟨(C2_final_dedup_shrinks [dedupB, dedupC, dedupA]).1,
    (C2_final_dedup_shrinks [dedupB, dedupC, dedupA]).2 dedupA
      (by
        have f1 : iouRule THRESHOLDS.IOU_DEDUPE dedupC dedupB = none := by
          norm_num [iouRule, calculateIoU, calculateUnion, calculateIntersection,
            calculateArea, dedupB, dedupC, min_def, max_def, THRESHOLDS.IOU_DEDUPE]
        have f2 : iouRule THRESHOLDS.IOU_DEDUPE dedupA dedupB = some true := by
          norm_num [iouRule, calculateIoU, calculateUnion, calculateIntersection,
            calculateArea, dedupA, dedupB, min_def, max_def, THRESHOLDS.IOU_DEDUPE]
        have c1 : containmentRule THRESHOLDS.IOU_CONTAINMENT dedupC dedupA = none := by
          norm_num [containmentRule, isContained, dedupA, dedupC]
        have t1 : textRule dedupC dedupA = none := by decide
        have hL1 : applyLightDeduplication [dedupB, dedupC, dedupA] =
            [dedupB, dedupC, dedupA] := by decide
        have hI1 : applyIoUDeduplication [dedupB, dedupC, dedupA] THRESHOLDS.IOU_DEDUPE =
            [dedupA, dedupC] := by
          simp [applyIoUDeduplication, dedupeScan, dedupeInsert, f1, f2]
        have hC1 : applyContainmentDeduplication [dedupA, dedupC]
            THRESHOLDS.IOU_CONTAINMENT = [dedupA, dedupC] := by
          simp [applyContainmentDeduplication, dedupeScan, dedupeInsert, c1]
        have hT1 : applyTextBasedDeduplication [dedupA, dedupC] = [dedupA, dedupC] := by
          simp [applyTextBasedDeduplication, dedupeScan, dedupeInsert, t1]
        rw [applyFinalDeduplication, hL1, hI1, hC1, hT1]
        simp)⟩

/-- Claim C8: for two candidates with identical non-empty normalized text,
exactly the one with the smaller top+left score survives the text
deduplication, and the other is removed with the text-duplicate
worse-position reason. -/
theorem C8_text_dedup_pair (a b : Elem)
    (ht : jsToLower (jsTrim a.innerText) = jsToLower (jsTrim b.innerText))
    (hlen : 0 < (jsToLower (jsTrim a.innerText)).length) :
    (a.rect.top + a.rect.left < b.rect.top + b.rect.left →
      applyTextBasedDeduplicationWithReasons [a, b] =
        ([a], [(b.selector, textDupReason (jsToLower (jsTrim b.innerText)))])) ∧
    (b.rect.top + b.rect.left < a.rect.top + a.rect.left →
      applyTextBasedDeduplicationWithReasons [a, b] =
        ([b], [(a.selector, textDupReason (jsToLower (jsTrim b.innerText)))])) := by
  have h0 : textReasonInsert a [] = none := rfl
  have hcond : jsToLower (jsTrim b.innerText) = jsToLower (jsTrim a.innerText) ∧
      (jsToLower (jsTrim b.innerText)).length > 0 := ⟨ht.symm, ht ▸ hlen⟩
  constructor <;> intro hs
  · have h2 : textReasonInsert b [a] =
        some ([a], (b.selector, textDupReason (jsToLower (jsTrim b.innerText)))) := by
      rw [textReasonInsert, if_pos hcond, if_neg (not_lt.mpr hs.le)]
    simp only [applyTextBasedDeduplicationWithReasons, textReasonGo, h0, h2, mapSet,
      List.nil_append]
  · have h2 : textReasonInsert b [a] =
        some ([b], (a.selector, textDupReason (jsToLower (jsTrim b.innerText)))) := by
      rw [textReasonInsert, if_pos hcond, if_pos hs]
    simp only [applyTextBasedDeduplicationWithReasons, textReasonGo, h0, h2, mapSet,
      List.nil_append]

theorem C8_text_dedup_pair_witness :
    applyTextBasedDeduplicationWithReasons [submitNear, submitFar] =
      ([submitNear],
        [(submitFar.selector, textDupReason (jsToLower (jsTrim submitFar.innerText)))]) :=
  (C8_text_dedup_pair submitNear submitFar (by decide) (by decide)).1
    (by norm_num [Rect.top, Rect.left, submitNear, submitFar])

theorem length_filter_decide_add {α : Type} (l : List α) (p : α → Prop) [DecidablePred p] :
    (l.filter fun x => decide (p x)).length +
      (l.filter fun x => decide (¬ p x)).length = l.length := by
  induction l with
  | nil => simp
  | cons a t ih =>
    simp only [decide_not] at ih ⊢
    by_cases h : p a <;> simp [List.filter_cons, h] <;> omega

theorem nodup_subset_length {α : Type} {l₁ l₂ : List α}
    (h₁ : l₁.Nodup) (h₂ : ∀ x ∈ l₁, x ∈ l₂) : l₁.length ≤ l₂.length :=
  (h₁.subperm h₂).length_le

/-- Claim C1 (amended): ensureMinimumSurvivors guarantees at least
min(MIN_SURVIVORS_PER_STAGE, input length) survivors for the stages it
wraps (the stage input being a list of distinct element references); the
final deduplication stage of applyComprehensiveFiltering is not wrapped by
it and can violate the bound (see the counterexample). -/
theorem C1_minimum_survivors (survivors input : List Elem) (hnd : input.Nodup) :
    min THRESHOLDS.MIN_SURVIVORS_PER_STAGE input.length ≤
      (ensureMinimumSurvivors survivors input).length := by
  unfold ensureMinimumSurvivors
  split
  · rename_i h
    exact le_trans (min_le_left _ _) h
  · rename_i h
    split
    · rename_i hpos
      rw [List.length_append, List.length_take]
      have hsplit := length_filter_decide_add input (fun el => el ∈ survivors)
      have hin : (input.filter fun el => decide (el ∈ survivors)).length ≤
          survivors.length := by
        apply nodup_subset_length (hnd.filter _)
        intro x hx
        simpa using (List.mem_filter.mp hx).2
      simp only [Nat.min_def]
      split_ifs <;> omega
    · rename_i hzero
      rw [List.length_take]

theorem C1_minimum_survivors_witness :
    ([sampleE1, sampleE2, sampleE3, sampleE4] : List Elem).Nodup ∧
    min THRESHOLDS.MIN_SURVIVORS_PER_STAGE 4 ≤
      (ensureMinimumSurvivors [sampleE1] [sampleE1, sampleE2, sampleE3, sampleE4]).length :=
  ⟨by decide, by
    simpa using
      C1_minimum_survivors [sampleE1] [sampleE1, sampleE2, sampleE3, sampleE4] (by decide)⟩

/-- Counterexample to claim C1 as stated: the final deduplication stage of
the pipeline is a removing stage with a 3-element input whose output has a
single survivor, below min(MIN_SURVIVORS_PER_STAGE, input length) = 3. -/
theorem C1_counterexample :
    (finalDeduplicationStage [dupX, dupY, dupZ]).length <
      min THRESHOLDS.MIN_SURVIVORS_PER_STAGE ([dupX, dupY, dupZ] : List Elem).length := by
  have fY : iouRule THRESHOLDS.IOU_DEDUPE dupY dupX = some false := by
    norm_num [iouRule, calculateIoU, calculateUnion, calculateIntersection, calculateArea,
      dupX, dupY, min_def, max_def, THRESHOLDS.IOU_DEDUPE]
  have fZ : iouRule THRESHOLDS.IOU_DEDUPE dupZ dupX = some false := by
    norm_num [iouRule, calculateIoU, calculateUnion, calculateIntersection, calculateArea,
      dupX, dupZ, min_def, max_def, THRESHOLDS.IOU_DEDUPE]
  have hL : applyLightDeduplication [dupX, dupY, dupZ] = [dupX, dupY, dupZ] := by decide
  have hI : applyIoUDeduplication [dupX, dupY, dupZ] THRESHOLDS.IOU_DEDUPE = [dupX] := by
    simp [applyIoUDeduplication, dedupeScan, dedupeInsert, fY, fZ]
  have hC : applyContainmentDeduplication [dupX] THRESHOLDS.IOU_CONTAINMENT = [dupX] := by
    simp [applyContainmentDeduplication, dedupeScan, dedupeInsert]
  have hT : applyTextBasedDeduplication [dupX] = [dupX] := by
    simp [applyTextBasedDeduplication, dedupeScan, dedupeInsert]
  rw [finalDeduplicationStage, applyFinalDeduplication, hL, hI, hC, hT]
  norm_num [THRESHOLDS.MIN_SURVIVORS_PER_STAGE]

theorem dominatedBy_self (e : Elem) : dominatedBy e e = false := by
  simp only [dominatedBy, decide_eq_false_iff_not]
  intro h
  exact lt_irrefl _ h.2

theorem enum_keep_eq (l : List Elem) (i : ℕ) (e : Elem) (h : (i, e) ∈ l.enum) :
    (l.enum.all fun jf => decide (i = jf.1) || !(dominatedBy e jf.2)) = topLevelKeep l e := by
  apply Bool.eq_iff_iff.mpr
  simp only [List.all_eq_true, topLevelKeep, Bool.or_eq_true, decide_eq_true_eq,
    Bool.not_eq_true']
  constructor
  · intro H f hf
    obtain ⟨j, hj⟩ := List.getElem?_of_mem hf
    have hjf : (j, f) ∈ l.enum := List.mem_enum_iff_getElem?.mpr hj
    rcases H (j, f) hjf with hij | hdom
    · have he : l[i]? = some e := List.mem_enum_iff_getElem?.mp h
      have hij2 : i = j := hij
      rw [← hij2, he] at hj
      have hef : e = f := Option.some.inj hj
      rw [← hef]
      exact dominatedBy_self e
    · exact hdom
  · intro H jf hjf
    exact Or.inr (H jf.2 (List.getElem?_mem (List.mem_enum_iff_getElem?.mp hjf)))

theorem enumFrom_filter_map_snd {α : Type} (q : α → Bool) :
    ∀ (t : List α) (n : ℕ) (p : ℕ × α → Bool),
      (∀ ie ∈ t.enumFrom n, p ie = q ie.2) →
      ((t.enumFrom n).filter p).map Prod.snd = t.filter q := by
  intro t
  induction t with
  | nil => intro n p H; simp
  | cons a t ih =>
    intro n p H
    have hcons : (a :: t).enumFrom n = (n, a) :: t.enumFrom (n + 1) := rfl
    have hpa : p (n, a) = q a := H (n, a) (by rw [hcons]; exact List.mem_cons_self _ _)
    have ihapp := ih (n + 1) p fun ie hie =>
      H ie (by rw [hcons]; exact List.mem_cons_of_mem _ hie)
    rw [hcons, List.filter_cons, List.filter_cons, hpa]
    cases hq : q a <;> simp [ihapp]

theorem filterTopLevelElements_eq (l : List Elem) :
    filterTopLevelElements l = l.filter (topLevelKeep l) := by
  unfold filterTopLevelElements
  exact enumFrom_filter_map_snd (topLevelKeep l) l 0 _ fun ie hie =>
    enum_keep_eq l ie.1 ie.2 hie

theorem filterTopLevelElements_subset (l : List Elem) :
    ∀ x ∈ filterTopLevelElements l, x ∈ l := by
  rw [filterTopLevelElements_eq]
  intro x hx
  exact (List.mem_filter.mp hx).1

theorem topLevelKeep_of_subset {l out : List Elem} (hsub : ∀ x ∈ out, x ∈ l) (e : Elem)
    (he : topLevelKeep l e = true) : topLevelKeep out e = true := by
  simp only [topLevelKeep, List.all_eq_true] at he ⊢
  exact fun f hf => he f (hsub f hf)

theorem filterTopLevelElements_idem (l : List Elem) :
    filterTopLevelElements (filterTopLevelElements l) = filterTopLevelElements l := by
  rw [filterTopLevelElements_eq (filterTopLevelElements l)]
  apply List.filter_eq_self.mpr
  intro a ha
  have hkeep : topLevelKeep l a = true := by
    rw [filterTopLevelElements_eq] at ha
    exact (List.mem_filter.mp ha).2
  exact topLevelKeep_of_subset (filterTopLevelElements_subset l) a hkeep

theorem applyTopLevelFiltering_eq (l : List Elem) :
    applyTopLevelFiltering l = filterTopLevelElements l := by
  have hid := filterTopLevelElements_idem l
  simp only [applyTopLevelFiltering, topLevelGo, hid]
  by_cases h : (filterTopLevelElements l).length = l.length <;> simp [h]

/-- Claim C3: the top-level spatial filter is idempotent, and one pass
keeps exactly the candidates not dominated (IoU above 0.7 with a strictly
larger-area candidate) by any candidate of the input. -/
theorem C3_top_level_idempotent (l : List Elem) :
    applyTopLevelFiltering (applyTopLevelFiltering l) = applyTopLevelFiltering l ∧
    applyTopLevelFiltering l = l.filter (topLevelKeep l) := by
  constructor
  · rw [applyTopLevelFiltering_eq l, applyTopLevelFiltering_eq (filterTopLevelElements l),
      filterTopLevelElements_idem]
  · rw [applyTopLevelFiltering_eq l, filterTopLevelElements_eq]

theorem llmBatches_ok (analyze : List Elem → Except Err (List Analysis)) :
    ∀ bs : List (List Elem), ∃ out, llmBatches analyze bs = Except.ok out := by
  intro bs
  induction bs with
  | nil => exact ⟨[], rfl⟩
  | cons batch rest ih =>
    obtain ⟨out, hout⟩ := ih
    cases ha : analyze batch with
    | ok results =>
      exact ⟨List.zipWith attachLLM batch results ++ out, by simp [llmBatches, hout, ha]⟩
    | error err =>
      exact ⟨(batch.map fun e => attachLLM e (fallbackAnalysis e)) ++ out,
        by simp [llmBatches, hout, ha]⟩

/-- Claim C4 (amended): a failing batch inside the LLM-analysis stage is
absorbed by the per-batch fallback and the stage never throws, but a
failure in the stage sequence reaches applyComprehensiveFiltering's catch
block and is rethrown, surfacing as a run-level exception. -/
theorem C4_error_propagation :
    (∀ (stages : List (List Elem → Except Err (List Elem))) (init : List Elem) (e : Err),
      runStages stages init = Except.error e →
      applyComprehensiveFilteringE stages init = Except.error e) ∧
    (∀ (analyze : List Elem → Except Err (List Analysis)) (elements : List Elem),
      ∃ out, applyLLMAnalysisE analyze elements = Except.ok out) := by
  constructor
  · intro stages init e h
    simp [applyComprehensiveFilteringE, h]
  · intro analyze elements
    exact llmBatches_ok analyze (chunk5 elements)

/-- Counterexample to claim C4 as stated: a single failing stage makes
applyComprehensiveFiltering return (rethrow) the stage's error instead of
falling back to the prior survivor set, so a stage failure does surface as
a run-level exception. -/
theorem C4_counterexample :
    applyComprehensiveFilteringE [throwingStage] [sampleE1] =
      Except.error (Err.failure "stage failed") := rfl

theorem C4_error_propagation_witness :
    applyComprehensiveFilteringE [throwingStage, throwingStage] [sampleE2] =
      Except.error (Err.failure "stage failed") :=
  C4_error_propagation.1 [throwingStage, throwingStage] [sampleE2]
    (Err.failure "stage failed") rfl

/-- Claim C9: isTrulyVisible implies isBasicVisible, and for a
basic-visible candidate inside the scroll-extended viewport the decision
is exactly whether the fraction of sampled points resolving to the
candidate or a descendant reaches the 0.6 visibility threshold. -/
theorem C9_truly_visible {η : Type} [DecidableEq η] (env : Env)
    (elementFromPoint : ℚ → ℚ → Option η) (contains : η → η → Bool) (item : Item η) :
    (isTrulyVisible env elementFromPoint contains item = true →
      isBasicVisible env elementFromPoint contains item = true) ∧
    (isBasicVisible env elementFromPoint contains item = true →
      ¬(item.boundingRect.bottom + env.scrollTop < 0 ∨
        item.boundingRect.top + env.scrollTop > env.innerHeight + env.scrollTop ∨
        item.boundingRect.right + env.scrollLeft < 0 ∨
        item.boundingRect.left + env.scrollLeft > env.innerWidth + env.scrollLeft) →
      (isTrulyVisible env elementFromPoint contains item = true ↔
        (((generateTestPoints item.boundingRect).countP
            (pointResolves elementFromPoint contains item.node) : ℚ) /
          ((generateTestPoints item.boundingRect).length : ℚ) ≥
          THRESHOLDS.VISIBILITY_POINTS))) := by
  constructor
  · intro h
    cases hbv : isBasicVisible env elementFromPoint contains item
    · rw [isTrulyVisible] at h
      simp [hbv] at h
    · rfl
  · intro hb hv
    have h1 : (!(isBasicVisible env elementFromPoint contains item)) = false := by
      rw [hb]
      rfl
    rw [isTrulyVisible, h1, if_neg Bool.false_ne_true, if_neg hv]
    simp

theorem C9_truly_visible_witness :
    isTrulyVisible visEnv visEFP visContains visItem = true ↔
      (((generateTestPoints visItem.boundingRect).countP
          (pointResolves visEFP visContains visItem.node) : ℚ) /
        ((generateTestPoints visItem.boundingRect).length : ℚ) ≥
        THRESHOLDS.VISIBILITY_POINTS) :=
  (C9_truly_visible visEnv visEFP visContains visItem).2
    (by
      norm_num [isBasicVisible, isTransformVisible, isClipPathVisible, pointResolves,
        visEnv, visItem, visEFP, visContains, Rect.left, Rect.top, Rect.right, Rect.bottom,
        THRESHOLDS.VIEWPORT_MARGIN]
      decide)
    (by norm_num [visEnv, visItem, Rect.left, Rect.top, Rect.right, Rect.bottom])

end Scope
